import Mathlib

/-!
# Verification of the `match` package of csgoverview

A shallow embedding of `src/match/match.go` (a high-level CS:GO demo
parser) together with proofs about its round-phase state machine, its
frame-indexed effect timelines (grenade effects, weapon-fire tracers,
kill feed), its derived countdown timer, and its construction-time
error handling.

Modelling conventions:
* Go `float64`/`float32` values are modelled as `ℚ`; a possibly-NaN
  float produced by the external decoder is modelled as `Option ℚ`
  with `none` standing for NaN.  Conversions `int(x)` / `int32(x)`
  (truncation toward zero) and `math.Round` (half away from zero) get
  explicit helpers.
* Go `time.Duration` values are modelled as `Int` (nanoseconds), with
  `second = 10^9`.
* A Go map `map[int][]T` is modelled as `Int → Option (List T)`;
  `none` means the key is absent (`ok == false` on lookup).
* The external demoinfocs library types (teams, equipment types and
  their classes, event payloads) are modelled with just the structure
  the handlers in `match.go` read.
-/

namespace Csgoverview

/-- Modelled from the spec: the round phase enumeration of the
`common` package of this repository (not under `src/`); the spec lists
the phases as "Warmup, Freezetime, Regular, Planted, Restart,
Halftime", so `Warmup` is taken as the enum's first (zero) value. -/
inductive Phase where
  | Warmup
  | Freezetime
  | Regular
  | Planted
  | Restart
  | Halftime
deriving DecidableEq, Repr

/-- Modelled from the external demoinfocs library: team constants; the
handlers only ever mention `TeamUnassigned`. -/
inductive Team where
  | Unassigned
  | Spectators
  | Terrorists
  | CounterTerrorists
deriving DecidableEq, Repr

/-- Modelled from the external demoinfocs library: equipment classes,
as compared against by `weaponFireEventHandler` and
`isWeaponOrGrenade`. -/
inductive EqClass where
  | Unknown
  | Pistols
  | SMG
  | Heavy
  | Rifle
  | Equipment
  | Grenade
deriving DecidableEq, Repr

/-- Modelled from the external demoinfocs library: the equipment types
the handlers distinguish (only `AWP` is compared against directly;
the rest stand for representatives of the remaining classes). -/
inductive EquipmentType where
  | AWP
  | AK47
  | Glock
  | MP9
  | Nova
  | Flash
  | HE
  | Smoke
  | Bomb
  | Knife
  | Zeus
  | World
deriving DecidableEq, Repr

/-- Modelled from the external demoinfocs library: `Equipment.Class()`
derives the class from the type. -/
def EquipmentType.eqClass : EquipmentType → EqClass
  | .AWP => .Rifle
  | .AK47 => .Rifle
  | .Glock => .Pistols
  | .MP9 => .SMG
  | .Nova => .Heavy
  | .Flash => .Grenade
  | .HE => .Grenade
  | .Smoke => .Grenade
  | .Bomb => .Equipment
  | .Knife => .Equipment
  | .Zeus => .Equipment
  | .World => .Unknown

/-- `common.Point` (two `float32` coordinates). -/
structure Point where
  X : ℚ
  Y : ℚ
deriving DecidableEq, Repr

/-- `common.GrenadeEffect`: one per-frame entry of a flash/HE/smoke
effect; `Lifetime` is the age in frames of the effect on the frame
whose bucket holds the entry (`int32(i)` in `grenadeEventHandler`). -/
structure GrenadeEffect where
  Position : Point
  GrenadeType : EquipmentType
  Lifetime : Int
deriving DecidableEq, Repr

/-- `common.Shot`: a weapon-fire tracer entry. -/
structure Shot where
  Position : Point
  ViewDirectionX : ℚ
  IsAwpShot : Bool
deriving DecidableEq, Repr

/-- `common.Kill`: a kill-feed entry. -/
structure Kill where
  KillerName : String
  KillerTeam : Team
  VictimName : String
  VictimTeam : Team
  Weapon : EquipmentType
deriving DecidableEq, Repr

/-- `common.Timer`: the derived countdown carried by a snapshot.
`TimeRemaining` is a `time.Duration`, i.e. a signed nanosecond
count. -/
structure Timer where
  TimeRemaining : Int
  Phase : Phase
deriving DecidableEq, Repr

/-- The per-frame snapshot (`common.OverviewState`).  The fields that
are copied verbatim from the external per-tick world-state accessor
(players, grenade projectiles, infernos, bomb, team states) are
omitted: no verified claim concerns their contents, only that one
snapshot is produced per successfully decoded tick. -/
structure OverviewState where
  IngameTick : Int
  Timer : Timer
deriving DecidableEq, Repr

/-- The numeric game-configuration values `parseGameStates` reads from
`gameState.ConVars()`.  In the source each is parsed from a string
with `strconv.Atoi` / `strconv.ParseFloat` and a parse failure is
ignored, leaving the zero value; the fields here hold the parsed
result directly (so an absent convar is the field value `0`). -/
structure ConVars where
  mp_freezetime : Int
  mp_roundtime_defuse : ℚ
  mp_round_restart_delay : Int
  mp_halftime_duration : Int
deriving DecidableEq, Repr

/-- `match.Match` (the fields the verified claims concern; the static
map-metadata fields `MapName`, `MapPZero`, `MapScale` come from the
external metadata table and are omitted). -/
structure Match where
  HalfStarts : List Int
  RoundStarts : List Int
  GrenadeEffects : Int → Option (List GrenadeEffect)
  FrameRate : ℚ
  TickRate : ℚ
  FrameRateRounded : Int
  States : List OverviewState
  SmokeEffectLifetime : Int
  Killfeed : Int → Option (List Kill)
  Shots : Int → Option (List Shot)
  currentPhase : Phase
  latestTimerEventTime : Int

/-! ## Constants (lines 20–25 of match.go) -/

def flashEffectLifetime : Int := 10
def heEffectLifetime : Int := 10
def killfeedLifetime : Int := 10
def c4timer : Int := 40

/-- One `time.Second` in `time.Duration` units (nanoseconds). -/
def second : Int := 1000000000

/-! ## Go numeric conversions -/

/-- Go's numeric conversion from a float to an integer type:
truncation toward zero. -/
def goTrunc (q : ℚ) : Int := if q < 0 then ⌈q⌉ else ⌊q⌋

/-- Go's `math.Round`: round half away from zero. -/
def goRound (q : ℚ) : Int := if q < 0 then -⌊-q + 1/2⌋ else ⌊q + 1/2⌋

/-! ## Event payloads (external demoinfocs event structs) -/

/-- The fields of a `GrenadeEvent` payload the handler reads. -/
structure GrenadeEvent where
  PositionX : ℚ
  PositionY : ℚ
  GrenadeType : EquipmentType
deriving DecidableEq, Repr

/-- The fields of the shooter (`*common.Player` of demoinfocs) that
`weaponFireEventHandler` reads. -/
structure PlayerEnt where
  Name : String
  Team : Team
  PositionX : ℚ
  PositionY : ℚ
  ViewDirectionX : ℚ
deriving DecidableEq, Repr

/-- An `event.WeaponFire` payload: a possibly-nil shooter and the
fired weapon. -/
structure WeaponFireEvent where
  Shooter : Option PlayerEnt
  Weapon : EquipmentType
deriving DecidableEq, Repr

/-- The killer/victim fields of an `event.Kill` payload that the kill
handler reads. -/
structure KillPlayer where
  Name : String
  Team : Team
deriving DecidableEq, Repr

/-- An `event.Kill` payload: possibly-nil killer and victim, and the
weapon type. -/
structure KillEvent where
  Killer : Option KillPlayer
  Victim : Option KillPlayer
  Weapon : EquipmentType
deriving DecidableEq, Repr

/-- The events `registerEventHandlers` subscribes to.  `OtherEvent`
stands for any event kind of the external decoder for which no
handler is registered. -/
inductive GameEvent where
  | RoundStart
  | MatchStart
  | GameHalfEnded
  | WeaponFire (e : WeaponFireEvent)
  | FlashExplode (e : GrenadeEvent)
  | HeExplode (e : GrenadeEvent)
  | SmokeStart (e : GrenadeEvent)
  | Kill (e : KillEvent)
  | RoundFreezetimeEnd
  | BombPlanted
  | RoundEnd
  | AnnouncementWinPanelMatch
  | OtherEvent

/-! ## Frame-indexed map operations -/

/-- The map-insert pattern shared by the grenade-effect and shot
loops: `xs, ok := m[k]; if ok { m[k] = append(xs, x) } else
{ m[k] = []T{x} }`. -/
def mapAppend (mp : Int → Option (List α)) (k : Int) (x : α) :
    Int → Option (List α) :=
  fun j =>
    if j = k then
      match mp k with
      | some xs => some (xs ++ [x])
      | none => some [x]
    else mp j

/-- The body of the kill-feed loop (lines 214–224), kept in source
shape: when the bucket exists and holds more than 5 entries the code
first assigns the bucket its own tail, but then unconditionally
overwrites that same key with `append(kills, kill)` built from the
*original* slice, so the eviction write never survives. -/
def killfeedStep (mp : Int → Option (List Kill)) (k : Int) (kl : Kill) :
    Int → Option (List Kill) :=
  match mp k with
  | some kills =>
      let mp1 := if kills.length > 5 then
          (fun j => if j = k then some (kills.drop 1) else mp j)
        else mp
      fun j => if j = k then some (kills ++ [kl]) else mp1 j
  | none => fun j => if j = k then some [kl] else mp j

/-! ## Event handlers (translated from match.go) -/

/-- The grenade-effect entry inserted for loop index `i` by
`grenadeEventHandler` (lines 109–116). -/
def grenadeEffectOf (e : GrenadeEvent) (i : Int) : GrenadeEffect :=
  { Position := { X := e.PositionX, Y := e.PositionY }
    GrenadeType := e.GrenadeType
    Lifetime := i }

/-- `grenadeEventHandler` (lines 106–124): insert one aged copy of the
effect into each frame bucket `frame+i` for `i < int(lifetime)`. -/
def grenadeEventHandler (lifetime : Int) (frame : Int) (e : GrenadeEvent)
    (m : Match) : Match :=
  { m with GrenadeEffects :=
      ((List.range lifetime.toNat).foldl
        (fun g (i : Nat) => mapAppend g (frame + (i : Int)) (grenadeEffectOf e (i : Int)))
        m.GrenadeEffects) }

/-- The tracer lifetime computation of `weaponFireEventHandler`
(lines 145–151): `int((FrameRate+1)/32)` clamped to at least 1, then
replaced by `int((FrameRate+1)/8)` — after the clamp — when the shot
is an AWP shot. -/
def shotLifetime (frameRate : ℚ) (isAwpShot : Bool) : Int :=
  let lifetime := goTrunc ((frameRate + 1) / 32)
  let lifetime := if lifetime = 0 then 1 else lifetime
  if isAwpShot then goTrunc ((frameRate + 1) / 8) else lifetime

/-- The `common.Shot` built by `weaponFireEventHandler`
(lines 136–143). -/
def shotOf (shooter : PlayerEnt) (isAwpShot : Bool) : Shot :=
  { Position := { X := shooter.PositionX, Y := shooter.PositionY }
    ViewDirectionX := shooter.ViewDirectionX
    IsAwpShot := isAwpShot }

/-- `weaponFireEventHandler` (lines 126–160): ignore fires with a nil
shooter or an equipment/grenade/unknown-class weapon; otherwise insert
the tracer into the buckets of the next `shotLifetime` frames. -/
def weaponFireEventHandler (frame : Int) (e : WeaponFireEvent) (m : Match) :
    Match :=
  match e.Shooter with
  | none => m
  | some shooter =>
      if e.Weapon.eqClass = .Equipment ∨ e.Weapon.eqClass = .Grenade ∨
          e.Weapon.eqClass = .Unknown then
        m
      else
        let isAwpShot := e.Weapon == EquipmentType.AWP
        let shot := shotOf shooter isAwpShot
        let lifetime := shotLifetime m.FrameRate isAwpShot
        { m with Shots :=
            ((List.range lifetime.toNat).foldl
              (fun mp (i : Nat) => mapAppend mp (frame + (i : Int)) shot) m.Shots) }

/-- The `common.Kill` built by the kill handler (lines 190–212): a nil
killer or victim yields the name "World" and the unassigned team; the
weapon type is taken from the event in all cases. -/
def killOf (e : KillEvent) : Kill :=
  { KillerName := match e.Killer with | none => "World" | some k => k.Name
    KillerTeam := match e.Killer with | none => Team.Unassigned | some k => k.Team
    VictimName := match e.Victim with | none => "World" | some v => v.Name
    VictimTeam := match e.Victim with | none => Team.Unassigned | some v => v.Team
    Weapon := e.Weapon }

/-- The kill handler (lines 188–225): insert the kill-feed entry into
the buckets of the next `FrameRateRounded * killfeedLifetime` frames
(via `killfeedStep`, which carries the dead eviction write). -/
def killEventHandler (frame : Int) (e : KillEvent) (m : Match) : Match :=
  { m with Killfeed :=
      ((List.range (m.FrameRateRounded * killfeedLifetime).toNat).foldl
        (fun mp (i : Nat) => killfeedStep mp (frame + (i : Int)) (killOf e)) m.Killfeed) }

/-- The grenade-effect wipe performed by the third `RoundStart`
handler (lines 249–254): for `i` from 1 while `i <
int(SmokeEffectLifetime)`, replace bucket `frame+i` with a fresh empty
slice (the key then exists and holds the empty list). -/
def roundStartWipe (frame : Int) (n : Int)
    (g : Int → Option (List GrenadeEffect)) : Int → Option (List GrenadeEffect) :=
  (List.range' 1 (n.toNat - 1)).foldl
    (fun g (i : Nat) => fun j => if j = frame + (i : Int) then some [] else g j) g

/-- Dispatch of one decoded event to every handler registered for its
kind (lines 162–255), in registration order; events with no registered
handler leave the match untouched. -/
def handleEvent (frame time : Int) (ev : GameEvent) (m : Match) : Match :=
  match ev with
  | .RoundStart =>
      let m := { m with RoundStarts := m.RoundStarts ++ [frame] }
      let m := { m with currentPhase := .Freezetime, latestTimerEventTime := time }
      { m with GrenadeEffects := roundStartWipe frame m.SmokeEffectLifetime m.GrenadeEffects }
  | .MatchStart => { m with HalfStarts := m.HalfStarts ++ [frame] }
  | .GameHalfEnded =>
      let m := { m with HalfStarts := m.HalfStarts ++ [frame] }
      { m with currentPhase := .Halftime, latestTimerEventTime := time }
  | .WeaponFire e => weaponFireEventHandler frame e m
  | .FlashExplode e => grenadeEventHandler flashEffectLifetime frame e m
  | .HeExplode e => grenadeEventHandler heEffectLifetime frame e m
  | .SmokeStart e => grenadeEventHandler m.SmokeEffectLifetime frame e m
  | .Kill e => killEventHandler frame e m
  | .RoundFreezetimeEnd => { m with currentPhase := .Regular, latestTimerEventTime := time }
  | .BombPlanted => { m with currentPhase := .Planted, latestTimerEventTime := time }
  | .RoundEnd => { m with currentPhase := .Restart, latestTimerEventTime := time }
  | .AnnouncementWinPanelMatch => { m with HalfStarts := m.HalfStarts ++ [frame] }
  | .OtherEvent => m

/-! ## Timer derivation (lines 372–419 of parseGameStates) -/

/-- The countdown computation of `parseGameStates`: if the world state
reports the warmup period the timer is `{0, Warmup}` unconditionally;
otherwise the remaining time is the phase's configured duration minus
the time elapsed since the last phase transition, with the phase tag
copied from the tracked phase — except that the `Halftime` case tags
its result `Restart`.  The `Warmup` tracked-phase case is modelled
from the spec: the Go `switch` has no case for it, so `timer` keeps
its zero value `Timer{0, Phase(0)}`, and the spec lists `Warmup` as
the first phase value. -/
def deriveTimer (isWarmupPeriod : Bool) (currentPhase : Phase)
    (latestTimerEventTime : Int) (now : Int) (cv : ConVars) : Timer :=
  if isWarmupPeriod then
    { TimeRemaining := 0, Phase := .Warmup }
  else
    match currentPhase with
    | .Freezetime =>
        { TimeRemaining := cv.mp_freezetime * second - (now - latestTimerEventTime)
          Phase := .Freezetime }
    | .Regular =>
        { TimeRemaining := goTrunc (cv.mp_roundtime_defuse * 60) * second -
            (now - latestTimerEventTime)
          Phase := .Regular }
    | .Planted =>
        { TimeRemaining := c4timer * second - (now - latestTimerEventTime)
          Phase := .Planted }
    | .Restart =>
        { TimeRemaining := cv.mp_round_restart_delay * second - (now - latestTimerEventTime)
          Phase := .Restart }
    | .Halftime =>
        { TimeRemaining := cv.mp_halftime_duration * second - (now - latestTimerEventTime)
          Phase := .Restart }
    | .Warmup => { TimeRemaining := 0, Phase := .Warmup }

/-- The configured duration the timer computation selects for each
tracked phase (the first summand of each `remaining` expression above;
`0` for the no-case `Warmup` arm). -/
def configuredDuration : Phase → ConVars → Int
  | .Freezetime, cv => cv.mp_freezetime * second
  | .Regular, cv => goTrunc (cv.mp_roundtime_defuse * 60) * second
  | .Planted, _ => c4timer * second
  | .Restart, cv => cv.mp_round_restart_delay * second
  | .Halftime, cv => cv.mp_halftime_duration * second
  | .Warmup, _ => 0

/-! ## The tick loop (parseGameStates) and construction (NewMatch) -/

/-- What the external decoder reports for one successfully parsed
tick: the events fired while parsing the frame, the parser's current
frame number, playback time and ingame tick id, and the world-state
fields the snapshot assembly reads (warmup flag and config values). -/
structure TickData where
  events : List GameEvent
  frame : Int
  time : Int
  ingameTick : Int
  isWarmupPeriod : Bool
  conVars : ConVars

/-- One decoded demo, as consumed by `NewMatch`: the header's frame
rate and the parser's tick rate (`none` models NaN), and the sequence
of tick parse results (`Except.error` models a per-tick decode
error from `ParseNextFrame`). -/
structure DemoInput where
  headerFrameRate : Option ℚ
  tickRate : Option ℚ
  ticks : List (Except String TickData)

/-- Fire the events of one tick into the registered handlers, in
order. -/
def processTickEvents (m : Match) (td : TickData) : Match :=
  td.events.foldl (fun acc ev => handleEvent td.frame td.time ev acc) m

/-- Assemble the snapshot appended for one successfully decoded tick
(lines 269–430; the fields copied from the world-state accessor other
than the tick id are omitted, see `OverviewState`). -/
def buildState (m : Match) (td : TickData) : OverviewState :=
  { IngameTick := td.ingameTick
    Timer := deriveTimer td.isWarmupPeriod m.currentPhase m.latestTimerEventTime
        td.time td.conVars }

/-- `parseGameStates` (lines 258–436): iterate over the decoder's
ticks; a tick with a decode error is logged and skipped (`continue`),
a successful tick first fires its events into the handlers and then
appends its snapshot.  Returns the final match state and the snapshot
sequence. -/
def parseGameStates (m : Match) :
    List (Except String TickData) → Match × List OverviewState
  | [] => (m, [])
  | .error _ :: rest => parseGameStates m rest
  | .ok td :: rest =>
      let m1 := processTickEvents m td
      let st := buildState m1 td
      ((parseGameStates m1 rest).1, st :: (parseGameStates m1 rest).2)

/-- `math.IsNaN(r) || r == 0`, for a possibly-NaN rate (`none` models
NaN). -/
def floatInvalid (r : Option ℚ) : Bool := r.isNone || (r.getD 0 == 0)

/-- The error message returned when the frame rate is missing and no
fallback was supplied (lines 76–77). -/
def frameRateErrMsg : String :=
  "could not parse Framerate from demo." ++
    "Please provide a fallback value (command-line option -framerate)"

/-- The error message returned when the tick rate is missing and no
fallback was supplied (lines 85–86). -/
def tickRateErrMsg : String :=
  "could not parse Tickrate from demo." ++
    "Please provide a fallback value (command-line option -tickrate)"

/-- `NewMatch` (lines 51–104), from the point where the header has
been parsed: resolve the frame and tick rates (substituting the
fallback when the demo's value is NaN or zero, and failing with a
descriptive error when a needed fallback is `-1`), initialize the
match, and run the tick loop.  File-open and header-parse failures are
external I/O and are not modelled. -/
def NewMatch (input : DemoInput) (fallbackFrameRate fallbackTickRate : ℚ) :
    Except String Match :=
  if floatInvalid input.headerFrameRate ∧ fallbackFrameRate = -1 then
    .error frameRateErrMsg
  else if floatInvalid input.tickRate ∧ fallbackTickRate = -1 then
    .error tickRateErrMsg
  else
    let frameRate := if floatInvalid input.headerFrameRate then fallbackFrameRate
      else input.headerFrameRate.getD 0
    let tickRate := if floatInvalid input.tickRate then fallbackTickRate
      else input.tickRate.getD 0
    let m : Match :=
      { HalfStarts := []
        RoundStarts := []
        GrenadeEffects := fun _ => none
        FrameRate := frameRate
        TickRate := tickRate
        FrameRateRounded := goRound frameRate
        States := []
        SmokeEffectLifetime := goTrunc (18 * frameRate)
        Killfeed := fun _ => none
        Shots := fun _ => none
        currentPhase := .Warmup
        latestTimerEventTime := 0 }
    .ok { (parseGameStates m input.ticks).1 with
          States := (parseGameStates m input.ticks).2 }

/-! ## Lemmas on the frame-bucket loops -/

theorem mapAppend_apply (mp : Int → Option (List α)) (k : Int) (x : α) (j : Int) :
    mapAppend mp k x j = if j = k then some ((mp k).getD [] ++ [x]) else mp j := by
  unfold mapAppend
  cases h : mp k <;> simp [h]

/-- Closed form of the insert loops: inserting `eff i` at key `F + i`
for every `i < n` appends exactly one entry to each bucket in
`[F, F+n)` and touches no other bucket. -/
theorem foldl_mapAppend_apply (eff : Nat → α) (F : Int) (n : Nat)
    (mp : Int → Option (List α)) (j : Int) :
    ((List.range n).foldl
        (fun (g : Int → Option (List α)) (i : Nat) => mapAppend g (F + (i : Int)) (eff i))
        mp) j =
      if F ≤ j ∧ j < F + (n : Int) then
        some ((mp j).getD [] ++ [eff (j - F).toNat])
      else mp j := by
  induction n generalizing j with
  | zero =>
      simp only [List.range_zero, List.foldl_nil]
      rw [if_neg (by push_cast; omega)]
  | succ n ih =>
      rw [List.range_succ, List.foldl_append, List.foldl_cons, List.foldl_nil,
        mapAppend_apply]
      by_cases hj : j = F + (n : Int)
      · subst hj
        rw [if_pos rfl, ih (F + (n : Int)), if_neg (by omega),
          if_pos (by push_cast; omega)]
        have hto : ((F + (n : Int)) - F).toNat = n := by omega
        rw [hto]
      · rw [if_neg hj, ih j]
        by_cases hin : F ≤ j ∧ j < F + (n : Int)
        · rw [if_pos hin, if_pos (by push_cast at hin ⊢; omega)]
        · rw [if_neg hin, if_neg (by push_cast at hin ⊢; omega)]

/-- The two consecutive map writes of the kill-feed loop body collapse
to a plain append: the conditional eviction write is immediately
overwritten at the same key. -/
theorem killfeedStep_eq (mp : Int → Option (List Kill)) (k : Int) (kl : Kill) :
    killfeedStep mp k kl = mapAppend mp k kl := by
  funext j
  unfold killfeedStep mapAppend
  cases h : mp k with
  | none => simp [h]
  | some kills =>
      by_cases h5 : kills.length > 5 <;> by_cases hj : j = k <;> simp [h, h5, hj]

/-- Closed form of the `RoundStart` wipe loop: keys `frame + s` up to
`frame + s + cnt - 1` become the empty bucket, all others are
untouched. -/
theorem foldl_wipe_apply (frame : Int) (g : Int → Option (List GrenadeEffect))
    (s cnt : Nat) (j : Int) :
    ((List.range' s cnt).foldl
        (fun (g : Int → Option (List GrenadeEffect)) (i : Nat) =>
          fun j' => if j' = frame + (i : Int) then some [] else g j') g) j =
      if frame + (s : Int) ≤ j ∧ j < frame + (s : Int) + (cnt : Int) then some []
      else g j := by
  induction cnt generalizing s g with
  | zero =>
      simp only [List.range', List.foldl_nil]
      rw [if_neg (by push_cast; omega)]
  | succ cnt ih =>
      rw [List.range'_succ, List.foldl_cons, ih _ (s + 1)]
      by_cases hj : frame + ((s + 1 : Nat) : Int) ≤ j ∧
          j < frame + ((s + 1 : Nat) : Int) + (cnt : Int)
      · rw [if_pos hj, if_pos (by push_cast at hj ⊢; omega)]
      · rw [if_neg hj]
        show (if j = frame + (s : Int) then some [] else g j) = _
        by_cases hjs : j = frame + (s : Int)
        · rw [if_pos hjs, if_pos (by push_cast at hj ⊢; omega)]
        · rw [if_neg hjs, if_neg (by push_cast at hj ⊢; omega)]

/-! ## Closed forms of the handlers' effect on the buckets -/

theorem grenadeEventHandler_GrenadeEffects (lifetime frame : Int)
    (e : GrenadeEvent) (m : Match) (j : Int) :
    (grenadeEventHandler lifetime frame e m).GrenadeEffects j =
      if frame ≤ j ∧ j < frame + (lifetime.toNat : Int) then
        some ((m.GrenadeEffects j).getD [] ++
          [grenadeEffectOf e ((j - frame).toNat : Int)])
      else m.GrenadeEffects j := by
  unfold grenadeEventHandler
  exact foldl_mapAppend_apply (fun i => grenadeEffectOf e (i : Int)) frame
    lifetime.toNat m.GrenadeEffects j

theorem grenadeEventHandler_other (lifetime frame : Int) (e : GrenadeEvent)
    (m : Match) :
    (grenadeEventHandler lifetime frame e m).HalfStarts = m.HalfStarts ∧
    (grenadeEventHandler lifetime frame e m).RoundStarts = m.RoundStarts ∧
    (grenadeEventHandler lifetime frame e m).Killfeed = m.Killfeed ∧
    (grenadeEventHandler lifetime frame e m).Shots = m.Shots ∧
    (grenadeEventHandler lifetime frame e m).FrameRate = m.FrameRate ∧
    (grenadeEventHandler lifetime frame e m).FrameRateRounded = m.FrameRateRounded ∧
    (grenadeEventHandler lifetime frame e m).SmokeEffectLifetime =
      m.SmokeEffectLifetime ∧
    (grenadeEventHandler lifetime frame e m).currentPhase = m.currentPhase ∧
    (grenadeEventHandler lifetime frame e m).latestTimerEventTime =
      m.latestTimerEventTime :=
  ⟨rfl, rfl, rfl, rfl, rfl, rfl, rfl, rfl, rfl⟩

theorem killEventHandler_Killfeed (frame : Int) (e : KillEvent) (m : Match)
    (j : Int) :
    (killEventHandler frame e m).Killfeed j =
      if frame ≤ j ∧ j < frame + ((m.FrameRateRounded * killfeedLifetime).toNat : Int) then
        some ((m.Killfeed j).getD [] ++ [killOf e])
      else m.Killfeed j := by
  have hext : ∀ (N : Nat) (mp : Int → Option (List Kill)),
      (List.range N).foldl
          (fun mp (i : Nat) => killfeedStep mp (frame + (i : Int)) (killOf e)) mp =
        (List.range N).foldl
          (fun (mp : Int → Option (List Kill)) (i : Nat) =>
            mapAppend mp (frame + (i : Int)) (killOf e)) mp :=
    fun N mp => List.foldl_ext _ _ mp (fun mp i _ => by rw [killfeedStep_eq])
  unfold killEventHandler
  rw [hext]
  exact foldl_mapAppend_apply (fun _ => killOf e) frame
    (m.FrameRateRounded * killfeedLifetime).toNat m.Killfeed j

theorem roundStartWipe_apply (frame n : Int)
    (g : Int → Option (List GrenadeEffect)) (j : Int) :
    roundStartWipe frame n g j =
      if frame + 1 ≤ j ∧ j < frame + 1 + ((n.toNat - 1 : Nat) : Int) then some []
      else g j := by
  unfold roundStartWipe
  have h := foldl_wipe_apply frame g 1 (n.toNat - 1) j
  simpa using h

theorem weaponFireEventHandler_Shots (frame : Int) (e : WeaponFireEvent)
    (m : Match) (sh : PlayerEnt) (hs : e.Shooter = some sh)
    (hc : ¬(e.Weapon.eqClass = .Equipment ∨ e.Weapon.eqClass = .Grenade ∨
      e.Weapon.eqClass = .Unknown)) (j : Int) :
    (weaponFireEventHandler frame e m).Shots j =
      if frame ≤ j ∧
          j < frame + ((shotLifetime m.FrameRate (e.Weapon == EquipmentType.AWP)).toNat : Int) then
        some ((m.Shots j).getD [] ++ [shotOf sh (e.Weapon == EquipmentType.AWP)])
      else m.Shots j := by
  obtain ⟨sho, w⟩ := e
  obtain rfl : sho = some sh := hs
  simp only [weaponFireEventHandler]
  rw [if_neg hc]
  exact foldl_mapAppend_apply (fun _ => shotOf sh (w == EquipmentType.AWP)) frame
    (shotLifetime m.FrameRate (w == EquipmentType.AWP)).toNat m.Shots j

theorem weaponFireEventHandler_other (frame : Int) (e : WeaponFireEvent)
    (m : Match) :
    (weaponFireEventHandler frame e m).currentPhase = m.currentPhase ∧
    (weaponFireEventHandler frame e m).latestTimerEventTime =
      m.latestTimerEventTime := by
  unfold weaponFireEventHandler
  cases e.Shooter with
  | none => exact ⟨rfl, rfl⟩
  | some sh =>
      by_cases hcl : e.Weapon.eqClass = EqClass.Equipment ∨
          e.Weapon.eqClass = EqClass.Grenade ∨ e.Weapon.eqClass = EqClass.Unknown
      · simp [if_pos hcl]
      · simp [if_neg hcl]

theorem killEventHandler_other (frame : Int) (e : KillEvent) (m : Match) :
    (killEventHandler frame e m).currentPhase = m.currentPhase ∧
    (killEventHandler frame e m).latestTimerEventTime = m.latestTimerEventTime ∧
    (killEventHandler frame e m).FrameRateRounded = m.FrameRateRounded ∧
    (killEventHandler frame e m).GrenadeEffects = m.GrenadeEffects ∧
    (killEventHandler frame e m).Shots = m.Shots :=
  ⟨rfl, rfl, rfl, rfl, rfl⟩

/-! ## C4: the phase state machine -/

/-- C4: each phase event sets the tracked phase (RoundStart →
Freezetime, FreezetimeEnd → Regular, BombPlanted → Planted, RoundEnd →
Restart, HalfEnded → Halftime) and records the event's timestamp as
the new anchor; every other event kind — including unrecognized ones —
leaves the tracked phase and the transition timestamp unchanged. -/
theorem c4_phase_transitions (m : Match) (frame time : Int)
    (wf : WeaponFireEvent) (gf gh gs : GrenadeEvent) (ke : KillEvent) :
    ((handleEvent frame time .RoundStart m).currentPhase = .Freezetime ∧
      (handleEvent frame time .RoundStart m).latestTimerEventTime = time) ∧
    ((handleEvent frame time .RoundFreezetimeEnd m).currentPhase = .Regular ∧
      (handleEvent frame time .RoundFreezetimeEnd m).latestTimerEventTime = time) ∧
    ((handleEvent frame time .BombPlanted m).currentPhase = .Planted ∧
      (handleEvent frame time .BombPlanted m).latestTimerEventTime = time) ∧
    ((handleEvent frame time .RoundEnd m).currentPhase = .Restart ∧
      (handleEvent frame time .RoundEnd m).latestTimerEventTime = time) ∧
    ((handleEvent frame time .GameHalfEnded m).currentPhase = .Halftime ∧
      (handleEvent frame time .GameHalfEnded m).latestTimerEventTime = time) ∧
    ((handleEvent frame time .MatchStart m).currentPhase = m.currentPhase ∧
      (handleEvent frame time .MatchStart m).latestTimerEventTime =
        m.latestTimerEventTime) ∧
    ((handleEvent frame time (.WeaponFire wf) m).currentPhase = m.currentPhase ∧
      (handleEvent frame time (.WeaponFire wf) m).latestTimerEventTime =
        m.latestTimerEventTime) ∧
    ((handleEvent frame time (.FlashExplode gf) m).currentPhase = m.currentPhase ∧
      (handleEvent frame time (.FlashExplode gf) m).latestTimerEventTime =
        m.latestTimerEventTime) ∧
    ((handleEvent frame time (.HeExplode gh) m).currentPhase = m.currentPhase ∧
      (handleEvent frame time (.HeExplode gh) m).latestTimerEventTime =
        m.latestTimerEventTime) ∧
    ((handleEvent frame time (.SmokeStart gs) m).currentPhase = m.currentPhase ∧
      (handleEvent frame time (.SmokeStart gs) m).latestTimerEventTime =
        m.latestTimerEventTime) ∧
    ((handleEvent frame time (.Kill ke) m).currentPhase = m.currentPhase ∧
      (handleEvent frame time (.Kill ke) m).latestTimerEventTime =
        m.latestTimerEventTime) ∧
    ((handleEvent frame time .AnnouncementWinPanelMatch m).currentPhase =
        m.currentPhase ∧
      (handleEvent frame time .AnnouncementWinPanelMatch m).latestTimerEventTime =
        m.latestTimerEventTime) ∧
    ((handleEvent frame time .OtherEvent m).currentPhase = m.currentPhase ∧
      (handleEvent frame time .OtherEvent m).latestTimerEventTime =
        m.latestTimerEventTime) :=
  ⟨⟨rfl, rfl⟩, ⟨rfl, rfl⟩, ⟨rfl, rfl⟩, ⟨rfl, rfl⟩, ⟨rfl, rfl⟩, ⟨rfl, rfl⟩,
    weaponFireEventHandler_other frame wf m,
    ⟨rfl, rfl⟩, ⟨rfl, rfl⟩, ⟨rfl, rfl⟩, ⟨rfl, rfl⟩, ⟨rfl, rfl⟩, ⟨rfl, rfl⟩⟩

/-! ## C5: warmup short-circuits the timer -/

/-- C5: on a frame whose world state reports the warmup period, the
derived timer is `{TimeRemaining := 0, Phase := Warmup}` regardless of
the tracked phase and of the last transition timestamp, and the
snapshot built for such a tick carries exactly that timer. -/
theorem c5_warmup_timer :
    (∀ (phase : Phase) (latest now : Int) (cv : ConVars),
        deriveTimer true phase latest now cv =
          { TimeRemaining := 0, Phase := .Warmup }) ∧
    (∀ (m : Match) (td : TickData), td.isWarmupPeriod = true →
        (buildState m td).Timer = { TimeRemaining := 0, Phase := .Warmup }) := by
  refine ⟨fun phase latest now cv => rfl, fun m td h => ?_⟩
  show deriveTimer td.isWarmupPeriod m.currentPhase m.latestTimerEventTime
      td.time td.conVars = _
  rw [h]
  rfl

/-! ## C7: the Halftime timer reuses the Restart tag -/

/-- C7: on a non-warmup frame whose tracked phase is Halftime, the
timer's remaining time is computed from the configured halftime
duration, but the timer's phase tag is `Restart`, not `Halftime`. -/
theorem c7_halftime_restart_tag (latest now : Int) (cv : ConVars) :
    (deriveTimer false .Halftime latest now cv).TimeRemaining =
      configuredDuration .Halftime cv - (now - latest) ∧
    configuredDuration .Halftime cv = cv.mp_halftime_duration * second ∧
    (deriveTimer false .Halftime latest now cv).Phase = .Restart :=
  ⟨rfl, rfl, rfl⟩

/-! ## C3: the countdown formula -/

/-- C3: for a fixed non-warmup phase, fixed transition timestamp and
fixed configuration, the derived remaining time equals the configured
duration minus the time elapsed since the transition; it is strictly
decreasing in `now`, and it becomes negative for late enough `now`. -/
theorem c3_timer_formula (phase : Phase) (latest : Int) (cv : ConVars)
    (h : phase ≠ .Warmup) :
    (∀ now, (deriveTimer false phase latest now cv).TimeRemaining =
        configuredDuration phase cv - (now - latest)) ∧
    (∀ now1 now2, now1 < now2 →
        (deriveTimer false phase latest now2 cv).TimeRemaining <
          (deriveTimer false phase latest now1 cv).TimeRemaining) ∧
    (∃ now, (deriveTimer false phase latest now cv).TimeRemaining < 0) := by
  have hrem : ∀ now, (deriveTimer false phase latest now cv).TimeRemaining =
      configuredDuration phase cv - (now - latest) := by
    intro now
    cases phase with
    | Warmup => exact absurd rfl h
    | Freezetime => rfl
    | Regular => rfl
    | Planted => rfl
    | Restart => rfl
    | Halftime => rfl
  refine ⟨hrem, fun n1 n2 hlt => ?_, ⟨latest + configuredDuration phase cv + 1, ?_⟩⟩
  · rw [hrem, hrem]; omega
  · rw [hrem]; omega

/-- A configuration value used by the concrete witness runs. -/
def cv0 : ConVars := ⟨3, 2, 5, 15⟩

/-! ## C1: the effect-lifetime window -/

/-- C1 (amended): registering an effect at origin frame `F` with
lifetime `L` appends it to the bucket of every frame in `[F, F+L-1]`
and of no frame outside that range — for grenade effects (aged per
frame), weapon-fire tracers (with the computed tracer lifetime) and
kill-feed entries (with the `FrameRateRounded * 10` window) alike —
except that processing a `RoundStart` event at frame `R` resets every
grenade-effect bucket of frames `R+1 ≤ f < R + smokeEffectLifetime` to
the empty bucket, deleting previously registered grenade effects
there. -/
theorem c1_amended :
    (∀ (m : Match) (lifetime frame : Int) (e : GrenadeEvent) (f : Int),
      (frame ≤ f ∧ f < frame + (lifetime.toNat : Int) →
        (grenadeEventHandler lifetime frame e m).GrenadeEffects f =
          some ((m.GrenadeEffects f).getD [] ++ [grenadeEffectOf e (f - frame)])) ∧
      (¬(frame ≤ f ∧ f < frame + (lifetime.toNat : Int)) →
        (grenadeEventHandler lifetime frame e m).GrenadeEffects f =
          m.GrenadeEffects f)) ∧
    (∀ (m : Match) (frame : Int) (e : WeaponFireEvent) (sh : PlayerEnt) (f : Int),
      e.Shooter = some sh →
      ¬(e.Weapon.eqClass = .Equipment ∨ e.Weapon.eqClass = .Grenade ∨
          e.Weapon.eqClass = .Unknown) →
      (frame ≤ f ∧
          f < frame +
            ((shotLifetime m.FrameRate (e.Weapon == EquipmentType.AWP)).toNat : Int) →
        (weaponFireEventHandler frame e m).Shots f =
          some ((m.Shots f).getD [] ++ [shotOf sh (e.Weapon == EquipmentType.AWP)])) ∧
      (¬(frame ≤ f ∧
          f < frame +
            ((shotLifetime m.FrameRate (e.Weapon == EquipmentType.AWP)).toNat : Int)) →
        (weaponFireEventHandler frame e m).Shots f = m.Shots f)) ∧
    (∀ (m : Match) (frame : Int) (e : KillEvent) (f : Int),
      (frame ≤ f ∧
          f < frame + ((m.FrameRateRounded * killfeedLifetime).toNat : Int) →
        (killEventHandler frame e m).Killfeed f =
          some ((m.Killfeed f).getD [] ++ [killOf e])) ∧
      (¬(frame ≤ f ∧
          f < frame + ((m.FrameRateRounded * killfeedLifetime).toNat : Int)) →
        (killEventHandler frame e m).Killfeed f = m.Killfeed f)) ∧
    (∀ (m : Match) (frame time f : Int),
      frame + 1 ≤ f ∧ f < frame + m.SmokeEffectLifetime →
      (handleEvent frame time .RoundStart m).GrenadeEffects f = some []) := by
  refine ⟨?_, ?_, ?_, ?_⟩
  · intro m lifetime frame e f
    constructor
    · intro hin
      rw [grenadeEventHandler_GrenadeEffects, if_pos hin]
      have hc : (((f - frame).toNat : Nat) : Int) = f - frame := by omega
      rw [hc]
    · intro hout
      rw [grenadeEventHandler_GrenadeEffects, if_neg hout]
  · intro m frame e sh f hs hc
    constructor
    · intro hin
      rw [weaponFireEventHandler_Shots frame e m sh hs hc, if_pos hin]
    · intro hout
      rw [weaponFireEventHandler_Shots frame e m sh hs hc, if_neg hout]
  · intro m frame e f
    constructor
    · intro hin
      rw [killEventHandler_Killfeed, if_pos hin]
    · intro hout
      rw [killEventHandler_Killfeed, if_neg hout]
  · intro m frame time f hin
    show roundStartWipe frame m.SmokeEffectLifetime m.GrenadeEffects f = some []
    rw [roundStartWipe_apply, if_pos (by omega)]

/-- A minimal match value, used as the starting state of the concrete
witness applications. -/
def m0 : Match :=
  { HalfStarts := []
    RoundStarts := []
    GrenadeEffects := fun _ => none
    FrameRate := 1
    TickRate := 64
    FrameRateRounded := 1
    States := []
    SmokeEffectLifetime := 18
    Killfeed := fun _ => none
    Shots := fun _ => none
    currentPhase := .Warmup
    latestTimerEventTime := 0 }

/-- A concrete grenade detonation payload. -/
def eg0 : GrenadeEvent := { PositionX := 3, PositionY := 4, GrenadeType := .Flash }

theorem c1_amended_witness :
    ((0 : Int) ≤ 2 ∧ (2 : Int) < 0 + (((10 : Int).toNat : Nat) : Int)) ∧
    (grenadeEventHandler 10 0 eg0 m0).GrenadeEffects 2 =
      some ((m0.GrenadeEffects 2).getD [] ++ [grenadeEffectOf eg0 2]) :=
  ⟨by decide, (c1_amended.1 m0 10 0 eg0 2).1 (by decide)⟩

/-- Concrete demo input for the lifetime-invariant counterexample: a
flash explodes at frame 0 (so its effect is registered for frames
0–9), and a round starts at frame 1 while the effect is still alive;
the round-start wipe then empties the grenade-effect buckets of frames
2–18 (the frame rate is 1, so the smoke-effect lifetime is 18). -/
def c1Input : DemoInput :=
  { headerFrameRate := some 1
    tickRate := some 64
    ticks :=
      [ .ok { events := [.FlashExplode eg0], frame := 0, time := 0,
              ingameTick := 0, isWarmupPeriod := true, conVars := cv0 },
        .ok { events := [.RoundStart], frame := 1, time := 1,
              ingameTick := 1, isWarmupPeriod := true, conVars := cv0 } ] }

/-- C1 fails on the code as stated: in the finished match built from
`c1Input`, the flash effect registered at origin frame 0 with lifetime
`flashEffectLifetime = 10` is present in the bucket of frame 0 but
absent from the bucket of frame 2, although `0 ≤ 2 ≤ 0 + 10 - 1`: the
`RoundStart` wipe emptied that bucket. -/
theorem c1_counterexample :
    Except.map (fun mm => (mm.GrenadeEffects 0, mm.GrenadeEffects 2))
        (NewMatch c1Input (-1) (-1)) =
      .ok (some [grenadeEffectOf eg0 0], some []) ∧
    flashEffectLifetime = 10 := by
  have hfr : floatInvalid (some (1 : ℚ)) = false := by
    simp [floatInvalid]
  have htr : floatInvalid (some (64 : ℚ)) = false := by
    simp [floatInvalid]
  have hsm : goTrunc (18 * (1 : ℚ)) = 18 := by
    simp [goTrunc]
  refine ⟨?_, rfl⟩
  simp only [c1Input, NewMatch, hfr, htr, Option.getD_some, Bool.false_eq_true,
    false_and, if_false, parseGameStates, processTickEvents, List.foldl_cons,
    List.foldl_nil, handleEvent, buildState, Except.map, hsm,
    grenadeEventHandler_GrenadeEffects, roundStartWipe_apply,
    grenadeEventHandler_other, flashEffectLifetime, Int.toNat_ofNat]
  norm_num

/-! ## C2: the kill-feed cap -/

/-- A kill of the named victim by the world. -/
def keV (name : String) : KillEvent :=
  { Killer := none
    Victim := some { Name := name, Team := .CounterTerrorists }
    Weapon := .AK47 }

/-- Concrete demo input for the kill-feed-cap check: seven kills are
reported on the same frame (frame rate 1, so every kill-feed entry
covers frames 0–9). -/
def c2Input : DemoInput :=
  { headerFrameRate := some 1
    tickRate := some 64
    ticks :=
      [ .ok { events := [.Kill (keV "V1"), .Kill (keV "V2"), .Kill (keV "V3"),
                .Kill (keV "V4"), .Kill (keV "V5"), .Kill (keV "V6"),
                .Kill (keV "V7")],
              frame := 0, time := 0, ingameTick := 0, isWarmupPeriod := true,
              conVars := cv0 } ] }

/-- C2 fails on the code: after seven kills on the same frame, the
finished match's kill-feed bucket for frame 0 holds all seven entries
in registration order — the eviction write `Killfeed[f] = Killfeed[f][1:]`
is immediately overwritten by `Killfeed[f] = append(kills, kill)`, so
no entry is ever evicted and the 5-entry cap is never enforced. -/
theorem c2_failing_eval :
    Except.map (fun mm => mm.Killfeed 0) (NewMatch c2Input (-1) (-1)) =
      .ok (some [killOf (keV "V1"), killOf (keV "V2"), killOf (keV "V3"),
        killOf (keV "V4"), killOf (keV "V5"), killOf (keV "V6"),
        killOf (keV "V7")]) := by
  have hfr : floatInvalid (some (1 : ℚ)) = false := by
    simp [floatInvalid]
  have htr : floatInvalid (some (64 : ℚ)) = false := by
    simp [floatInvalid]
  have hgr : goRound (1 : ℚ) = 1 := by
    norm_num [goRound]
  simp only [c2Input, NewMatch, hfr, htr, hgr, Option.getD_some,
    Bool.false_eq_true, false_and, if_false, parseGameStates, processTickEvents,
    List.foldl_cons, List.foldl_nil, handleEvent, buildState, Except.map,
    killEventHandler_Killfeed, killEventHandler_other, killfeedLifetime,
    Int.toNat_ofNat]
  norm_num

/-! ## C6: the weapon-fire tracer lifetime -/

/-- The tracer lifetime as the claim words it: "round((frameRate+1)/32)
frames for a non-sniper weapon and round((frameRate+1)/8) frames for
the sniper-class weapon, with a minimum of 1 frame".  Stated from the
spec's words for comparison with `shotLifetime`, the definition read
off the source. -/
def claimedShotLifetime (frameRate : ℚ) (isAwpShot : Bool) : Int :=
  max (goRound ((frameRate + 1) / (if isAwpShot then 8 else 32))) 1

/-- A concrete shooter. -/
def pl0 : PlayerEnt :=
  { Name := "P", Team := .Terrorists, PositionX := 0, PositionY := 0,
    ViewDirectionX := 0 }

/-- A rifle shot with a present shooter. -/
def wf47 : WeaponFireEvent := { Shooter := some pl0, Weapon := .AK47 }

/-- A match state whose frame rate is 47. -/
def m47 : Match :=
  { HalfStarts := []
    RoundStarts := []
    GrenadeEffects := fun _ => none
    FrameRate := 47
    TickRate := 64
    FrameRateRounded := 47
    States := []
    SmokeEffectLifetime := 846
    Killfeed := fun _ => none
    Shots := fun _ => none
    currentPhase := .Warmup
    latestTimerEventTime := 0 }

/-- C6 fails on the code as stated: the code truncates instead of
rounding — at frame rate 47 a non-sniper tracer lives
`int(48/32) = 1` frame, not `round(48/32) = 2`, so the bucket of frame
1 stays empty — and the 1-frame minimum is applied before the
sniper branch, so at frame rate 3 a sniper tracer gets lifetime
`int(4/8) = 0` instead of the claimed minimum 1. -/
theorem c6_counterexample :
    shotLifetime 47 false = 1 ∧ claimedShotLifetime 47 false = 2 ∧
    shotLifetime 3 true = 0 ∧ claimedShotLifetime 3 true = 1 ∧
    (weaponFireEventHandler 0 wf47 m47).Shots 0 =
      some [shotOf pl0 (wf47.Weapon == EquipmentType.AWP)] ∧
    (weaponFireEventHandler 0 wf47 m47).Shots 1 = none := by
  have h1 : shotLifetime 47 false = 1 := by norm_num [shotLifetime, goTrunc]
  have h2 : claimedShotLifetime 47 false = 2 := by
    norm_num [claimedShotLifetime, goRound]
  have h3 : shotLifetime 3 true = 0 := by norm_num [shotLifetime, goTrunc]
  have h4 : claimedShotLifetime 3 true = 1 := by
    norm_num [claimedShotLifetime, goRound]
  have hsho : wf47.Shooter = some pl0 := rfl
  have hcl : ¬(wf47.Weapon.eqClass = EqClass.Equipment ∨
      wf47.Weapon.eqClass = EqClass.Grenade ∨
      wf47.Weapon.eqClass = EqClass.Unknown) := by decide
  have hawp : (wf47.Weapon == EquipmentType.AWP) = false := rfl
  refine ⟨h1, h2, h3, h4, ?_, ?_⟩
  · rw [weaponFireEventHandler_Shots 0 wf47 m47 pl0 hsho hcl]
    have hfr : m47.FrameRate = 47 := rfl
    rw [hfr, hawp, h1]
    norm_num
    rfl
  · rw [weaponFireEventHandler_Shots 0 wf47 m47 pl0 hsho hcl]
    have hfr : m47.FrameRate = 47 := rfl
    rw [hfr, hawp, h1]
    norm_num
    rfl

/-- C6 (amended): for a weapon-fire event with a present shooter and a
weapon that is not equipment, a grenade or unknown, the tracer is
registered with lifetime `trunc((frameRate+1)/32)` frames clamped to a
minimum of 1 for a non-sniper weapon, and `trunc((frameRate+1)/8)`
frames — with no minimum applied — for the sniper-class weapon; at
frame rate 64 this still gives 2 frames for a non-sniper shot and 8
for a sniper shot. -/
theorem c6_amended :
    (∀ frameRate : ℚ, 0 ≤ frameRate →
      shotLifetime frameRate false = max ⌊(frameRate + 1) / 32⌋ 1 ∧
      shotLifetime frameRate true = ⌊(frameRate + 1) / 8⌋) ∧
    shotLifetime 64 false = 2 ∧ shotLifetime 64 true = 8 ∧
    (∀ (m : Match) (frame : Int) (e : WeaponFireEvent) (sh : PlayerEnt) (f : Int),
      e.Shooter = some sh →
      ¬(e.Weapon.eqClass = .Equipment ∨ e.Weapon.eqClass = .Grenade ∨
          e.Weapon.eqClass = .Unknown) →
      frame ≤ f →
      f < frame +
        ((shotLifetime m.FrameRate (e.Weapon == EquipmentType.AWP)).toNat : Int) →
      (weaponFireEventHandler frame e m).Shots f =
        some ((m.Shots f).getD [] ++ [shotOf sh (e.Weapon == EquipmentType.AWP)])) := by
  have hTrunc : ∀ q : ℚ, 0 ≤ q → goTrunc q = ⌊q⌋ := by
    intro q hq
    unfold goTrunc
    rw [if_neg (not_lt.mpr hq)]
  refine ⟨?_, by norm_num [shotLifetime, goTrunc],
    by norm_num [shotLifetime, goTrunc], ?_⟩
  · intro fr hfr
    have h32 : (0 : ℚ) ≤ (fr + 1) / 32 := by positivity
    have h8 : (0 : ℚ) ≤ (fr + 1) / 8 := by positivity
    have hf32 : (0 : Int) ≤ ⌊(fr + 1) / 32⌋ := Int.floor_nonneg.mpr h32
    constructor
    · simp only [shotLifetime, Bool.false_eq_true, if_false, hTrunc _ h32]
      by_cases h0 : ⌊(fr + 1) / 32⌋ = (0 : Int)
      · rw [if_pos h0, h0, max_eq_right (by norm_num)]
      · rw [if_neg h0, max_eq_left (by omega)]
    · simp only [shotLifetime, if_true, hTrunc _ h8]
  · intro m frame e sh f hsho hcl h1 h2
    rw [weaponFireEventHandler_Shots frame e m sh hsho hcl, if_pos ⟨h1, h2⟩]

theorem c6_amended_witness :
    ((0 : ℚ) ≤ 64) ∧ shotLifetime 64 false = max ⌊((64 : ℚ) + 1) / 32⌋ 1 :=
  ⟨by norm_num, (c6_amended.1 64 (by norm_num)).1⟩

theorem c3_timer_formula_witness :
    Phase.Planted ≠ Phase.Warmup ∧
    (deriveTimer false .Planted 0 7 cv0).TimeRemaining =
      configuredDuration .Planted cv0 - (7 - 0) :=
  ⟨by decide, (c3_timer_formula .Planted 0 cv0 (by decide)).1 7⟩

/-- A concrete warmup tick. -/
def td0 : TickData :=
  { events := [], frame := 0, time := 9, ingameTick := 7,
    isWarmupPeriod := true, conVars := cv0 }

theorem c5_warmup_timer_witness :
    td0.isWarmupPeriod = true ∧
    (buildState m0 td0).Timer = { TimeRemaining := 0, Phase := .Warmup } :=
  ⟨rfl, c5_warmup_timer.2 m0 td0 rfl⟩

/-! ## C8: construction-time rate resolution -/

/-- Every branch of `weaponFireEventHandler` changes at most the
`Shots` map. -/
theorem weaponFireEventHandler_eq (frame : Int) (e : WeaponFireEvent) (m : Match) :
    weaponFireEventHandler frame e m =
      { m with Shots := (weaponFireEventHandler frame e m).Shots } := by
  unfold weaponFireEventHandler
  cases e.Shooter with
  | none => rfl
  | some sh =>
      by_cases hcl : e.Weapon.eqClass = EqClass.Equipment ∨
          e.Weapon.eqClass = EqClass.Grenade ∨ e.Weapon.eqClass = EqClass.Unknown
      · simp only [if_pos hcl]
      · simp only [if_neg hcl]

/-- Event handling never changes the frame and tick rates. -/
theorem handleEvent_rates (frame time : Int) (ev : GameEvent) (m : Match) :
    (handleEvent frame time ev m).FrameRate = m.FrameRate ∧
    (handleEvent frame time ev m).TickRate = m.TickRate := by
  cases ev with
  | WeaponFire e =>
      show (weaponFireEventHandler frame e m).FrameRate = _ ∧
        (weaponFireEventHandler frame e m).TickRate = _
      rw [weaponFireEventHandler_eq]
      exact ⟨rfl, rfl⟩
  | RoundStart => exact ⟨rfl, rfl⟩
  | MatchStart => exact ⟨rfl, rfl⟩
  | GameHalfEnded => exact ⟨rfl, rfl⟩
  | FlashExplode e => exact ⟨rfl, rfl⟩
  | HeExplode e => exact ⟨rfl, rfl⟩
  | SmokeStart e => exact ⟨rfl, rfl⟩
  | Kill e => exact ⟨rfl, rfl⟩
  | RoundFreezetimeEnd => exact ⟨rfl, rfl⟩
  | BombPlanted => exact ⟨rfl, rfl⟩
  | RoundEnd => exact ⟨rfl, rfl⟩
  | AnnouncementWinPanelMatch => exact ⟨rfl, rfl⟩
  | OtherEvent => exact ⟨rfl, rfl⟩

theorem processTickEvents_rates (m : Match) (td : TickData) :
    (processTickEvents m td).FrameRate = m.FrameRate ∧
    (processTickEvents m td).TickRate = m.TickRate := by
  unfold processTickEvents
  induction td.events generalizing m with
  | nil => exact ⟨rfl, rfl⟩
  | cons ev rest ih =>
      rw [List.foldl_cons]
      rcases ih (handleEvent td.frame td.time ev m) with ⟨h1, h2⟩
      rcases handleEvent_rates td.frame td.time ev m with ⟨g1, g2⟩
      exact ⟨h1.trans g1, h2.trans g2⟩

theorem parseGameStates_rates (m : Match) (ticks : List (Except String TickData)) :
    (parseGameStates m ticks).1.FrameRate = m.FrameRate ∧
    (parseGameStates m ticks).1.TickRate = m.TickRate := by
  induction ticks generalizing m with
  | nil => exact ⟨rfl, rfl⟩
  | cons t rest ih =>
      cases t with
      | error s => exact ih m
      | ok td =>
          rcases ih (processTickEvents m td) with ⟨h1, h2⟩
          rcases processTickEvents_rates m td with ⟨g1, g2⟩
          exact ⟨h1.trans g1, h2.trans g2⟩

/-- C8: if the demo's frame rate is NaN or zero and no fallback frame
rate was supplied (`-1`), or the tick rate is NaN or zero and no
fallback tick rate was supplied, `NewMatch` returns the corresponding
descriptive error and no match value; when the demo's value is invalid
but a fallback other than `-1` is supplied, the fallback is
substituted as the match's rate and construction proceeds. -/
theorem c8_rate_fallback (input : DemoInput) (fbF fbT : ℚ) :
    (floatInvalid input.headerFrameRate = true → fbF = -1 →
      NewMatch input fbF fbT = .error frameRateErrMsg) ∧
    (¬(floatInvalid input.headerFrameRate = true ∧ fbF = -1) →
      floatInvalid input.tickRate = true → fbT = -1 →
      NewMatch input fbF fbT = .error tickRateErrMsg) ∧
    (floatInvalid input.headerFrameRate = true → fbF ≠ -1 →
      ¬(floatInvalid input.tickRate = true ∧ fbT = -1) →
      ∃ mm, NewMatch input fbF fbT = .ok mm ∧ mm.FrameRate = fbF) ∧
    (floatInvalid input.tickRate = true → fbT ≠ -1 →
      ¬(floatInvalid input.headerFrameRate = true ∧ fbF = -1) →
      ∃ mm, NewMatch input fbF fbT = .ok mm ∧ mm.TickRate = fbT) := by
  refine ⟨?_, ?_, ?_, ?_⟩
  · intro h1 h2
    unfold NewMatch
    rw [if_pos ⟨h1, h2⟩]
  · intro h1 h2 h3
    unfold NewMatch
    rw [if_neg h1, if_pos ⟨h2, h3⟩]
  · intro h1 h2 h3
    unfold NewMatch
    rw [if_neg (fun hw => h2 hw.2), if_neg h3]
    refine ⟨_, rfl, ?_⟩
    show (parseGameStates _ input.ticks).1.FrameRate = fbF
    rw [(parseGameStates_rates _ _).1]
    show (if floatInvalid input.headerFrameRate then fbF
      else input.headerFrameRate.getD 0) = fbF
    rw [if_pos h1]
  · intro h1 h2 h3
    unfold NewMatch
    rw [if_neg h3, if_neg (fun hw => h2 hw.2)]
    refine ⟨_, rfl, ?_⟩
    show (parseGameStates _ input.ticks).1.TickRate = fbT
    rw [(parseGameStates_rates _ _).2]
    show (if floatInvalid input.tickRate then fbT
      else input.tickRate.getD 0) = fbT
    rw [if_pos h1]

/-- A demo whose header carries no usable frame rate (NaN) but a valid
tick rate. -/
def c8Input : DemoInput :=
  { headerFrameRate := none, tickRate := some 64, ticks := [] }

theorem c8_rate_fallback_witness :
    floatInvalid c8Input.headerFrameRate = true ∧ (30 : ℚ) ≠ -1 ∧
    ¬(floatInvalid c8Input.tickRate = true ∧ (128 : ℚ) = -1) ∧
    ∃ mm, NewMatch c8Input 30 128 = .ok mm ∧ mm.FrameRate = 30 := by
  have hT : floatInvalid c8Input.tickRate = false := by
    simp [floatInvalid, c8Input]
  refine ⟨rfl, by norm_num, by simp [hT], ?_⟩
  exact (c8_rate_fallback c8Input 30 128).2.2.1 rfl (by norm_num) (by simp [hT])

/-! ## C9: per-tick decode errors are skipped -/

/-- C9: a tick on which the decoder reports an error contributes no
snapshot and does not halt the parse: the parse result over a tick
sequence with an error tick inserted equals the parse over the same
sequence without it, and every successfully decoded tick prepends
exactly its own snapshot, in order. -/
theorem c9_skip_error_tick :
    (∀ (m : Match) (pre post : List (Except String TickData)) (s : String),
      parseGameStates m (pre ++ .error s :: post) = parseGameStates m (pre ++ post)) ∧
    (∀ (m : Match) (td : TickData) (rest : List (Except String TickData)),
      (parseGameStates m (.ok td :: rest)).2 =
        buildState (processTickEvents m td) td ::
          (parseGameStates (processTickEvents m td) rest).2) := by
  constructor
  · intro m pre post s
    induction pre generalizing m with
    | nil => rfl
    | cons t rest ih =>
        cases t with
        | error s2 =>
            show parseGameStates m (rest ++ _ :: post) = parseGameStates m (rest ++ post)
            exact ih m
        | ok td =>
            show ((parseGameStates _ (rest ++ _ :: post)).1,
                _ :: (parseGameStates _ (rest ++ _ :: post)).2) = _
            rw [ih]
            rfl
  · intro m td rest
    rfl

/-! ## C10: kill-feed entries for world kills -/

/-- C10: a kill event is registered in the kill feed even when the
killer or the victim is absent: a nil killer yields killer name
"World" and the unassigned team, a nil victim likewise for the victim
side, a present player contributes their name and team, and the
weapon type is taken from the event in all cases. -/
theorem c10_kill_defaults (m : Match) (frame : Int) (e : KillEvent)
    (h : 0 < m.FrameRateRounded) :
    (killOf e).Weapon = e.Weapon ∧
    (e.Killer = none → (killOf e).KillerName = "World" ∧
      (killOf e).KillerTeam = .Unassigned) ∧
    (∀ p, e.Killer = some p → (killOf e).KillerName = p.Name ∧
      (killOf e).KillerTeam = p.Team) ∧
    (e.Victim = none → (killOf e).VictimName = "World" ∧
      (killOf e).VictimTeam = .Unassigned) ∧
    (∀ p, e.Victim = some p → (killOf e).VictimName = p.Name ∧
      (killOf e).VictimTeam = p.Team) ∧
    killOf e ∈ ((killEventHandler frame e m).Killfeed frame).getD [] := by
  refine ⟨rfl, ?_, ?_, ?_, ?_, ?_⟩
  · intro hk; simp [killOf, hk]
  · intro p hk; simp [killOf, hk]
  · intro hv; simp [killOf, hv]
  · intro p hv; simp [killOf, hv]
  · rw [killEventHandler_Killfeed,
      if_pos ⟨le_refl frame, by simp only [killfeedLifetime]; omega⟩]
    simp

theorem c10_kill_defaults_witness :
    0 < m0.FrameRateRounded ∧
    killOf (keV "V1") ∈
      ((killEventHandler 0 (keV "V1") m0).Killfeed 0).getD [] :=
  ⟨by decide, (c10_kill_defaults m0 0 (keV "V1") (by decide)).2.2.2.2.2⟩

end Csgoverview
